import Mathlib

/-!
Verification development for the maritime traffic chat analyzer
(`src/main.py`, class `ShippingAnalyzer`).

The Python routines are shallowly embedded as executable Lean functions:

* `re.search`-based intent classification (`analyze_query`) is embedded via a
  small backtracking regular-expression engine (`RE`, `mres`, `reSearch`)
  whose alternation order, greedy repetition and leftmost-search behaviour
  follow Python's `re` module on the pattern constructs the program uses
  (literals, `\s`, character classes, `+`, `*`, `?`, one capture group).
* External effects are input oracles: the tracking HTTP API is an `Api`
  record of responses, the pseudo-random generator is a `Rand` record of
  sampling functions constrained to the ranges Python's `random` guarantees,
  and the generative-language call is an `Option String` outcome.
* Python dict results are records of `Option` fields, one per dict key that
  the program can set.

Numbers are embedded as `ℚ` (Python floats are used only for coordinates,
speeds and headings, where no claim depends on rounding error).
-/

namespace Shipping

/-- Python `\s` (ASCII whitespace range used by `re` and `str.strip`). -/
def isSpaceC (c : Char) : Bool :=
  c = ' ' || c = '\t' || c = '\n' || c = '\r' || c = '\x0b' || c = '\x0c'

/-- Character class `[a-zA-Z]`. -/
def isAlphaC (c : Char) : Bool :=
  ('a' ≤ c && c ≤ 'z') || ('A' ≤ c && c ≤ 'Z')

/-- Character class `\d` = `[0-9]`. -/
def isDigitC (c : Char) : Bool :=
  '0' ≤ c && c ≤ '9'

/-- Character class `[a-zA-Z\s]`. -/
def alphaSpC (c : Char) : Bool := isAlphaC c || isSpaceC c

/-- Character class `[a-zA-Z0-9\s]`. -/
def alnumSpC (c : Char) : Bool := isAlphaC c || isDigitC c || isSpaceC c

/-- Python `str.lower` restricted to the ASCII range (all characters the
program ever compares are ASCII once patterns apply). -/
def lowerStr (s : String) : String := String.mk (s.data.map Char.toLower)

/-- Python `str.strip()`: drop leading and trailing whitespace. -/
def stripChars (l : List Char) : List Char :=
  ((l.dropWhile isSpaceC).reverse.dropWhile isSpaceC).reverse

/-- Capture text as a Python string: `match.group(1).strip()`. -/
def stripS (l : List Char) : String := String.mk (stripChars l)

/-- Boolean substring test on raw character lists (Python `needle in hay`). -/
def containsL (needle : List Char) : List Char → Bool
  | [] => needle.isPrefixOf []
  | c :: t => needle.isPrefixOf (c :: t) || containsL needle t

/-- Python `needle in hay` on strings. -/
def strContainsB (hay needle : String) : Bool := containsL needle.data hay.data

/-- Regular-expression abstract syntax covering the constructs used by
`analyze_query`: the empty expression, a single-character class, sequencing,
prioritised alternation, greedy star over a character class, and the single
capture group each pattern carries. -/
inductive RE where
  | eps : RE
  | cls (p : Char → Bool) : RE
  | cat (a b : RE) : RE
  | alt (a b : RE) : RE
  | star (p : Char → Bool) : RE
  | group (g : RE) : RE

/-- Remainders after a greedy star over class `p`, in backtracking order
(longest consumption first), as Python's greedy `*` explores them. -/
def starRes (p : Char → Bool) : List Char → List (List Char)
  | [] => [[]]
  | c :: t => if p c then starRes p t ++ [c :: t] else [c :: t]

/-- All ways to match a prefix of the input, in the backtracking order of
Python's `re` engine; each result is the group-1 capture (if the group was
entered) together with the unconsumed remainder. -/
def mres : RE → List Char → List (Option (List Char) × List Char)
  | .eps, s => [(none, s)]
  | .cls _, [] => []
  | .cls p, c :: t => if p c then [(none, t)] else []
  | .cat a b, s =>
      (mres a s).flatMap fun pr =>
        (mres b pr.2).map fun pr2 => (pr.1 <|> pr2.1, pr2.2)
  | .alt a b, s => mres a s ++ mres b s
  | .star p, s => (starRes p s).map fun t => (none, t)
  | .group g, s =>
      (mres g s).map fun pr => (some (s.take (s.length - pr.2.length)), pr.2)

/-- Python `re.search`: scan start positions left to right, return the
group-1 capture of the first (leftmost, backtracking-first) match. -/
def reSearch (r : RE) (s : List Char) : Option (List Char) :=
  match mres r s with
  | pr :: _ => some (pr.1.getD [])
  | [] =>
    match s with
    | [] => none
    | _ :: t => reSearch r t

/-- Sequence a list of expressions. -/
def seqAll (l : List RE) : RE := l.foldr RE.cat RE.eps

/-- A literal string of characters. -/
def reLit (s : String) : RE := seqAll (s.data.map fun c => RE.cls fun d => d = c)

/-- Pattern fragment `\s+`. -/
def wsPlus : RE := RE.cat (RE.cls isSpaceC) (RE.star isSpaceC)

/-- Pattern fragment `\s*`. -/
def wsStar : RE := RE.star isSpaceC

/-- Greedy optional single character, e.g. `s?`. -/
def optChar (c : Char) : RE := RE.alt (RE.cls fun d => d = c) RE.eps

/-- Greedy `+` over a character class. -/
def plusCls (p : Char → Bool) : RE := RE.cat (RE.cls p) (RE.star p)

/-- A capture group `([...]+)` over a character class. -/
def grpPlus (p : Char → Bool) : RE := RE.group (plusCls p)

/-- Pattern fragment `(\d{9})`. -/
def grpDigits9 : RE := RE.group (seqAll (List.replicate 9 (RE.cls isDigitC)))

/-- The `port_patterns` list of `analyze_query` (src/main.py lines 187-194),
in source order. -/
def portREs : List RE :=
  [ seqAll [reLit "porto", wsPlus, reLit "de", wsPlus, grpPlus alphaSpC],
    seqAll [reLit "porto", wsPlus, grpPlus alphaSpC],
    seqAll [reLit "porto", optChar 's', wsPlus, reLit "em", wsPlus, grpPlus alphaSpC],
    seqAll [reLit "porto", optChar 's', wsPlus, reLit "próximo", optChar 's', wsPlus,
            reLit "a", wsPlus, grpPlus alphaSpC],
    seqAll [reLit "harbour", wsPlus, reLit "of", wsPlus, grpPlus alphaSpC],
    seqAll [reLit "port", wsPlus, reLit "of", wsPlus, grpPlus alphaSpC] ]

/-- The `vessel_patterns` list (lines 196-201), in source order. -/
def vesselREs : List RE :=
  [ seqAll [reLit "navio", wsPlus, grpPlus alnumSpC],
    seqAll [reLit "embarcação", wsPlus, grpPlus alnumSpC],
    seqAll [reLit "vessel", wsPlus, grpPlus alnumSpC],
    seqAll [reLit "ship", wsPlus, grpPlus alnumSpC] ]

/-- The `mmsi_patterns` list (lines 203-206), in source order. -/
def mmsiREs : List RE :=
  [ seqAll [reLit "mmsi", wsStar,
            RE.alt (RE.cls fun c => c = ':' || c = '-') RE.eps, wsStar, grpDigits9],
    seqAll [reLit "mmsi", wsPlus, grpDigits9] ]

/-- The `region_patterns` list (lines 208-215), in source order. -/
def regionREs : List RE :=
  [ seqAll [reLit "região", wsPlus, reLit "de", wsPlus, grpPlus alphaSpC],
    seqAll [reLit "área", wsPlus, reLit "de", wsPlus, grpPlus alphaSpC],
    seqAll [reLit "próximo", wsPlus, reLit "a", wsPlus, grpPlus alphaSpC],
    seqAll [reLit "perto", wsPlus, reLit "de", wsPlus, grpPlus alphaSpC],
    seqAll [reLit "region", wsPlus, reLit "of", wsPlus, grpPlus alphaSpC],
    seqAll [reLit "near", wsPlus, grpPlus alphaSpC] ]

/-- The `vessel_type_patterns` list (lines 217-224), in source order. -/
def vesselTypeREs : List RE :=
  [ seqAll [reLit "navio", optChar 's', wsPlus, reLit "do", wsPlus, reLit "tipo",
            wsPlus, grpPlus alphaSpC],
    seqAll [reLit "navio", optChar 's', wsPlus, grpPlus alphaSpC],
    seqAll [reLit "embarcaçõe", optChar 's', wsPlus, reLit "do", wsPlus, reLit "tipo",
            wsPlus, grpPlus alphaSpC],
    seqAll [reLit "embarcaçõe", optChar 's', wsPlus, grpPlus alphaSpC],
    seqAll [reLit "ship", optChar 's', wsPlus, reLit "of", wsPlus, reLit "type",
            wsPlus, grpPlus alphaSpC],
    seqAll [grpPlus alphaSpC, wsPlus, reLit "ships"] ]

/-- The `flag_patterns` list (lines 226-229), in source order. -/
def flagREs : List RE :=
  [ seqAll [reLit "bandeira", wsPlus, reLit "d", RE.cls (fun c => c = 'e' || c = 'o'),
            wsPlus, grpPlus alphaSpC],
    seqAll [reLit "flag", wsPlus, reLit "of", wsPlus, grpPlus alphaSpC] ]

/-- One pattern-group loop of `analyze_query`: try each pattern with
`re.search` in listed order, break on the first match, return its capture. -/
def firstCap (ps : List RE) (s : List Char) : Option (List Char) :=
  match ps with
  | [] => none
  | p :: rest =>
    match reSearch p s with
    | some cap => some cap
    | none => firstCap rest s

/-- Coordinates record of the static `regions` table (lines 268-279). -/
structure RegionInfo where
  name : String
  lat : ℚ
  lon : ℚ
deriving Repr, DecidableEq

/-- The static `regions` table (lines 268-279), in insertion order. -/
def regionsTable : List (String × RegionInfo) :=
  [ ("suez", ⟨"Canal de Suez", 30.4276, 32.3439⟩),
    ("gibraltar", ⟨"Estreito de Gibraltar", 35.9897, -5.6125⟩),
    ("panama", ⟨"Canal do Panamá", 9.1480, -79.8308⟩),
    ("malaca", ⟨"Estreito de Malaca", 1.7136, 101.4661⟩),
    ("roterdã", ⟨"Porto de Roterdã", 51.9244, 4.4777⟩),
    ("rotterdam", ⟨"Porto de Roterdã", 51.9244, 4.4777⟩),
    ("brasil", ⟨"Costa do Brasil", -23.9619, -46.3042⟩),
    ("brazil", ⟨"Costa do Brasil", -23.9619, -46.3042⟩),
    ("los angeles", ⟨"Porto de Los Angeles", 33.7283, -118.2712⟩),
    ("shanghai", ⟨"Porto de Shanghai", 31.2304, 121.4737⟩) ]

/-- The static `vessel_types` table (lines 303-316), in insertion order. -/
def vesselTypesTable : List (String × String) :=
  [ ("cargo", "Cargo"), ("carga", "Cargo"),
    ("passageiros", "Passenger"), ("passenger", "Passenger"),
    ("petroleiro", "Tanker"), ("tanker", "Tanker"),
    ("pesca", "Fishing"), ("fishing", "Fishing"),
    ("rebocador", "Tug"), ("tug", "Tug"),
    ("pleasure", "Pleasure Craft"), ("recreio", "Pleasure Craft") ]

/-- The `params` dict built by `analyze_query`: one optional field per key
the routine can set; a missing key is `none` (the empty dict is the record
with every field `none`). -/
structure QueryParams where
  port_name : Option String := none
  query : Option String := none
  mmsi : Option String := none
  lat : Option ℚ := none
  lon : Option ℚ := none
  region_name : Option String := none
  vessel_type : Option String := none
  flag : Option String := none
deriving Repr, DecidableEq

/-- The `{"intent": ..., "params": ...}` dict returned by `analyze_query`. -/
structure QueryAnalysis where
  intent : String
  params : QueryParams
deriving Repr, DecidableEq

/-- The lowercased query as a character list (line 184, `query.lower()`). -/
def lowQ (query : String) : List Char := (lowerStr query).data

/-- Region branch of `analyze_query` (lines 266-293): if some key of the
static table occurs in the captured text (first key in insertion order wins),
classify as `ships_in_area` with the table coordinates, else fall back to
`port_info` with the captured text as port name. -/
def regionOutcome (region_name : String) : QueryAnalysis :=
  match regionsTable.find? (fun kv => strContainsB (lowerStr region_name) kv.1) with
  | some kv =>
    ⟨"ships_in_area",
      { lat := some kv.2.lat, lon := some kv.2.lon, region_name := some kv.2.name }⟩
  | none => ⟨"port_info", { port_name := some region_name }⟩

/-- Vessel-type branch of `analyze_query` (lines 301-328): if some key of the
`vessel_types` table occurs in the captured text, use the canonical category,
else keep the raw captured text as the type filter. -/
def typeOutcome (vessel_type : String) : QueryAnalysis :=
  match vesselTypesTable.find? (fun kv => strContainsB (lowerStr vessel_type) kv.1) with
  | some kv => ⟨"vessel_type_search", { vessel_type := some kv.2 }⟩
  | none => ⟨"vessel_type_search", { vessel_type := some vessel_type }⟩

/-- Embedding of `ShippingAnalyzer.analyze_query` (lines 182-346): lowercase
the query, then try the pattern groups in the fixed source order (port,
vessel name, MMSI, region, vessel type, flag); the first group with a match
decides the intent; otherwise the intent is `general` with empty params. -/
def analyzeQuery (query : String) : QueryAnalysis :=
  match firstCap portREs (lowQ query) with
  | some cap => ⟨"port_info", { port_name := some (stripS cap) }⟩
  | none =>
    match firstCap vesselREs (lowQ query) with
    | some cap => ⟨"vessel_search", { query := some (stripS cap) }⟩
    | none =>
      match firstCap mmsiREs (lowQ query) with
      | some cap => ⟨"vessel_by_mmsi", { mmsi := some (stripS cap) }⟩
      | none =>
        match firstCap regionREs (lowQ query) with
        | some cap => regionOutcome (stripS cap)
        | none =>
          match firstCap vesselTypeREs (lowQ query) with
          | some cap => typeOutcome (stripS cap)
          | none =>
            match firstCap flagREs (lowQ query) with
            | some cap => ⟨"flag_search", { flag := some (stripS cap) }⟩
            | none => ⟨"general", {}⟩

/-- A vessel record as the program consumes it (the simulated records of
`get_ships_in_area` set every field; the tracking API is assumed to return
the same uniform JSON shape, so the Python `dict.get` defaults never fire).
`last_port` is the one key the simulator never writes, hence optional. -/
structure Ship where
  mmsi : String
  name : String
  type : String
  speed : ℚ
  course : ℚ
  latitude : ℚ
  longitude : ℚ
  flag : String
  destination : String
  status : String
  last_port : Option String := none
deriving Repr, DecidableEq

/-- A port record, returned verbatim from the tracking API and never
inspected field-by-field by the embedded routines. -/
structure Port where
  raw : String
deriving Repr, DecidableEq

/-- A result dict as built by the `ShippingAnalyzer` query methods: one
optional field per dict key any of them can set. -/
structure QueryResult where
  error : Option String := none
  ships : Option (List Ship) := none
  port : Option Port := none
  ship : Option Ship := none
  note : Option String := none
  message : Option String := none
  intent : Option String := none
deriving Repr, DecidableEq

/-- Outcome of one `requests.get` call: either the request (or JSON
decoding) raised an exception with the given text, or it returned a status
code and a decoded body. -/
inductive HttpResult (α : Type) where
  | exn (msg : String)
  | resp (status : Nat) (body : α)
deriving Repr, DecidableEq

/-- Oracle for the tracking API: what each endpoint would answer, keyed by
the query-string argument the program sends. -/
structure Api where
  ports : String → HttpResult (List Port)
  vessels : String → HttpResult (List Ship)
  vesselById : String → HttpResult Ship

/-- Oracle for Python's `random` module: one sampling function per primitive,
indexed by the position of the call in the call sequence, each constrained to
the range the Python documentation guarantees (`randint` is inclusive on both
ends, `uniform` stays in the closed interval, `random` is in `[0,1)`, and
`choice` picks an index below the list length). -/
structure Rand where
  randintN : Nat → Nat → Nat → Nat
  uniformN : Nat → ℚ → ℚ → ℚ
  randomN : Nat → ℚ
  choiceN : Nat → Nat → Nat
  randint_mem : ∀ n lo hi, lo ≤ hi → lo ≤ randintN n lo hi ∧ randintN n lo hi ≤ hi
  uniform_mem : ∀ n (a b : ℚ), a ≤ b → a ≤ uniformN n a b ∧ uniformN n a b ≤ b
  random_mem : ∀ n, 0 ≤ randomN n ∧ randomN n < 1
  choice_mem : ∀ n len, 0 < len → choiceN n len < len

/-- Python `round(x, 1)` on exact rationals, modelled as round-half-up to one
decimal (Python rounds exact ties to even; the two agree off ties, and no
claim depends on tie behaviour). -/
def round1 (x : ℚ) : ℚ := (⌊x * 10 + 1 / 2⌋ : ℚ) / 10

/-- Embedding of `ShippingAnalyzer.get_ships_near_port` (lines 28-76):
resolve the port, fetch a broad vessel listing, filter to vessels whose
destination or last port equals the requested name (case-sensitive). -/
def getShipsNearPort (api : Api) (port_name : String) : QueryResult :=
  match api.ports port_name with
  | .exn m => { error := some ("Error fetching data: " ++ m) }
  | .resp st body =>
    if st ≠ 200 then { error := some ("Failed to fetch port data: " ++ toString st) }
    else
      match body with
      | [] => { error := some ("No ports found with name: " ++ port_name) }
      | port :: _ =>
        match api.vessels "" with
        | .exn m => { error := some ("Error fetching data: " ++ m) }
        | .resp st2 vessels =>
          if st2 ≠ 200 then
            { error := some ("Failed to fetch vessels data: " ++ toString st2) }
          else
            { ships := some (vessels.filter fun v =>
                v.destination == port_name || v.last_port == some port_name),
              port := some port }

/-- Embedding of `ShippingAnalyzer.get_ship_by_mmsi` (lines 78-96). -/
def getShipByMmsi (api : Api) (mmsi : String) : QueryResult :=
  match api.vesselById mmsi with
  | .exn m => { error := some ("Error fetching data: " ++ m) }
  | .resp st body =>
    if st ≠ 200 then { error := some ("Failed to fetch vessel data: " ++ toString st) }
    else { ship := some body }

/-- Embedding of `ShippingAnalyzer.search_vessels` (lines 98-120): name
search, truncated to the first `limit` results. -/
def searchVessels (api : Api) (query : String) (limit : Nat := 10) : QueryResult :=
  match api.vessels query with
  | .exn m => { error := some ("Error fetching data: " ++ m) }
  | .resp st body =>
    if st ≠ 200 then { error := some ("Failed to fetch vessels data: " ++ toString st) }
    else { ships := some (body.take limit) }

/-- Embedding of `ShippingAnalyzer.get_port_info` (lines 122-147). -/
def getPortInfo (api : Api) (port_name : String) : QueryResult :=
  match api.ports port_name with
  | .exn m => { error := some ("Error fetching data: " ++ m) }
  | .resp st body =>
    if st ≠ 200 then { error := some ("Failed to fetch port data: " ++ toString st) }
    else
      match body with
      | [] => { error := some ("No ports found with name: " ++ port_name) }
      | port :: _ => { port := some port }

/-- The fixed choice lists of `get_ships_in_area` (lines 152-155). -/
def shipTypes : List String :=
  ["Cargo", "Tanker", "Passenger", "Fishing", "Tug", "Pleasure Craft"]

/-- Flag choices of the simulator. -/
def shipFlags : List String :=
  ["Panama", "Liberia", "Marshall Islands", "Singapore", "Malta", "Bahamas"]

/-- Destination choices of the simulator. -/
def simPorts : List String :=
  ["Rotterdam", "Singapore", "Shanghai", "Antwerp", "Hamburg", "Los Angeles"]

/-- Status choices of the simulator. -/
def simStatuses : List String :=
  ["Underway using engine", "At anchor", "Moored", "Stopped",
   "Restricted maneuverability"]

/-- One synthetic vessel of `get_ships_in_area` (lines 162-174); `base` is
the index of its first `random` call in the call sequence. -/
def genShip (r : Rand) (base : Nat) (latitude longitude radius : ℚ) : Ship :=
  { mmsi := toString (r.randintN base 100000000 999999999),
    name := "VESSEL " ++ toString (r.randintN (base + 1) 1000 9999),
    type := shipTypes.getD (r.choiceN (base + 2) shipTypes.length) "",
    speed := round1 (r.uniformN (base + 3) 0 20),
    course := round1 (r.uniformN (base + 4) 0 359),
    latitude := latitude + (r.randomN (base + 5) - 1 / 2) * (radius / 50),
    longitude := longitude + (r.randomN (base + 6) - 1 / 2) * (radius / 50),
    flag := shipFlags.getD (r.choiceN (base + 7) shipFlags.length) "",
    destination := simPorts.getD (r.choiceN (base + 8) simPorts.length) "",
    status := simStatuses.getD (r.choiceN (base + 9) simStatuses.length) "" }

/-- The disclaimer note the simulator always attaches (line 179). -/
def simNote : String :=
  "Dados simulados para demonstração. API MyShipTracking não suporta busca por área geográfica."

/-- Embedding of `ShippingAnalyzer.get_ships_in_area` (lines 149-180): draw
`randint(5, 15)` synthetic vessels and attach the disclaimer note. -/
def getShipsInArea (r : Rand) (latitude longitude : ℚ) (radius : ℚ := 50) :
    QueryResult :=
  let num_ships := r.randintN 0 5 15
  { ships := some ((List.range num_ships).map fun i =>
      genShip r (1 + 10 * i) latitude longitude radius),
    note := some simNote }

/-- Embedding of `ShippingAnalyzer.execute_query` (lines 348-375). Reading a
key the params dict does not hold raises `KeyError` in Python, embedded as
`none`; otherwise the dispatched operation's dict is returned. -/
def executeQuery (api : Api) (r : Rand) (qa : QueryAnalysis) : Option QueryResult :=
  if qa.intent = "port_info" then
    qa.params.port_name.map fun pn => getPortInfo api pn
  else if qa.intent = "vessel_search" then
    qa.params.query.map fun s => searchVessels api s 10
  else if qa.intent = "vessel_by_mmsi" then
    qa.params.mmsi.map fun m => getShipByMmsi api m
  else if qa.intent = "ships_in_area" then
    match qa.params.lat, qa.params.lon with
    | some la, some lo => some (getShipsInArea r la lo 50)
    | _, _ => none
  else if qa.intent = "vessel_type_search" then
    qa.params.vessel_type.map fun vt =>
      { ships := some (((getShipsInArea r 0 0 50).ships.getD []).filter fun s =>
          lowerStr s.type == lowerStr vt) }
  else if qa.intent = "flag_search" then
    qa.params.flag.map fun fl =>
      { ships := some (((getShipsInArea r 0 0 50).ships.getD []).filter fun s =>
          strContainsB (lowerStr s.flag) (lowerStr fl)) }
  else
    some { message := some "Consulta geral", intent := some qa.intent }

/-- Per-vessel line of the fallback enumeration when at most five vessels
were found (lines 468-472, the four `+=` f-strings concatenated). -/
def shipLineA (s : Ship) : String :=
  "\n\n• " ++ s.name ++ " (MMSI: " ++ s.mmsi ++ ")" ++
  "\n  Tipo: " ++ s.type ++
  "\n  Bandeira: " ++ s.flag ++
  "\n  Destino: " ++ s.destination

/-- Per-vessel line of the fallback enumeration when more than five vessels
were found (lines 475-479). -/
def shipLineB (s : Ship) : String :=
  "• " ++ s.name ++ " (MMSI: " ++ s.mmsi ++ ")" ++
  "\n  Tipo: " ++ s.type ++
  "\n  Bandeira: " ++ s.flag ++
  "\n  Destino: " ++ s.destination ++ "\n\n"

/-- Concatenation of the per-vessel lines accumulated by the fallback
`for` loop (`response += ...`). -/
def strJoin : List String → String
  | [] => ""
  | s :: rest => s ++ strJoin rest

/-- The degraded-mode text of `generate_response` (the `except` branch,
lines 460-482, embedded verbatim): an error key wins, else a non-empty
vessel list is enumerated (all of them when at most five, else the first
five), else a generic apology. -/
def fallbackText (qr : QueryResult) : String :=
  match qr.error with
  | some e => "Desculpe, não consegui processar sua consulta. Ocorreu um erro: " ++ e
  | none =>
    match qr.ships with
    | some ships =>
      if ships.length > 0 then
        let base := "Encontrei " ++ toString ships.length ++
          " navios relacionados à sua consulta. "
        if ships.length ≤ 5 then
          base ++ strJoin (ships.map shipLineA)
        else
          base ++ "Aqui estão os primeiros 5:\n\n" ++
            strJoin ((ships.take 5).map shipLineB)
      else
        "Desculpe, não consegui processar sua consulta. Por favor, tente reformular sua pergunta sobre transporte marítimo."
    | none =>
      "Desculpe, não consegui processar sua consulta. Por favor, tente reformular sua pergunta sobre transporte marítimo."

/-- Embedding of `ShippingAnalyzer.generate_response` (lines 377-482) under
the evident repair of the two truncated `\x22\x22\x22` delimiters (lines 429 and
455; as committed the file is a Python `SyntaxError`, see the results for
C7/C10). The prompt text is consumed only by the external model, so the
`generate_content` call is an oracle `geminiOut`: `some t` when it returns
text `t`, `none` when it raises and the deterministic fallback runs. -/
def generateResponse (geminiOut : Option String) (query : String)
    (qr : QueryResult) : String :=
  match geminiOut with
  | some t => t
  | none => fallbackText qr

/-- Modelled from the spec: the vessel record consumed by the Data
Aggregator `_process_ships_data`, which belongs to the repository's earlier
dashboard iterations and is not present under `src/` (only the spec
describes it). Category, status and flag are counted; heading and speed may
be absent and are then excluded from their aggregates (spec sections 3, 4.2
and 8). -/
structure AggShip where
  category : String
  status : String
  flag : String
  heading : Option ℚ := none
  speed : Option ℚ := none
deriving Repr, DecidableEq

/-- Modelled from the spec: heading-to-sector mapping of the missing
`_process_ships_data`, "8 compass sectors of 45° each, with the North sector
wrapping across the 0°/360° boundary (heading ≥ 337.5° OR heading < 22.5°)"
(spec section 4.2). -/
def headingSector (h : ℚ) : String :=
  if 337.5 ≤ h ∨ h < 22.5 then "N"
  else if h < 67.5 then "NE"
  else if h < 112.5 then "E"
  else if h < 157.5 then "SE"
  else if h < 202.5 then "S"
  else if h < 247.5 then "SW"
  else if h < 292.5 then "W"
  else "NW"

/-- Count-based distribution of a key list: each distinct key with its
number of occurrences. -/
def countsBy (keys : List String) : List (String × Nat) :=
  keys.dedup.map fun k => (k, keys.count k)

/-- Modelled from the spec: the `AggregatedSummary` produced by the missing
`_process_ships_data` (spec section 3). -/
structure AggregatedSummary where
  region : String
  total : Nat
  byCategory : List (String × Nat)
  byStatus : List (String × Nat)
  byFlag : List (String × Nat)
  bySector : List (String × Nat)
  meanSpeed : ℚ
deriving Repr, DecidableEq

/-- Modelled from the spec: the Data Aggregator `_process_ships_data`, a
pure reduction of a vessel list to count distributions (category, status,
flag, heading sector) and a mean speed; vessels without a heading are
excluded from every sector, mean speed is the arithmetic mean over vessels
that report a speed and zero when none does (spec sections 3 and 4.2). -/
def processShipsData (region : String) (ships : List AggShip) : AggregatedSummary :=
  let sp := ships.filterMap fun s => s.speed
  { region := region,
    total := ships.length,
    byCategory := countsBy (ships.map fun s => s.category),
    byStatus := countsBy (ships.map fun s => s.status),
    byFlag := countsBy (ships.map fun s => s.flag),
    bySector := countsBy ((ships.filterMap fun s => s.heading).map headingSector),
    meanSpeed := if sp.length = 0 then 0 else sp.sum / (sp.length : ℚ) }

/-- A concrete random oracle (always the low end of every range), used to
instantiate witnesses. -/
def rand0 : Rand :=
  { randintN := fun _ lo _ => lo,
    uniformN := fun _ a _ => a,
    randomN := fun _ => 0,
    choiceN := fun _ _ => 0,
    randint_mem := fun _ _ _ h => ⟨le_refl _, h⟩,
    uniform_mem := fun _ _ _ h => ⟨le_refl _, h⟩,
    random_mem := fun _ => ⟨le_refl 0, one_pos⟩,
    choice_mem := fun _ _ h => h }

/-- A tracking-API oracle on which every request raises. -/
def apiDown : Api :=
  { ports := fun _ => .exn "offline",
    vessels := fun _ => .exn "offline",
    vesselById := fun _ => .exn "offline" }

/-- A sample vessel record for witnesses. -/
def shipZ : Ship :=
  { mmsi := "123456789", name := "ZETA QUEEN", type := "Cargo", speed := 10,
    course := 90, latitude := 0, longitude := 0, flag := "Panama",
    destination := "Santos", status := "Moored" }

/-- A tracking-API oracle whose vessel search finds exactly `shipZ`. -/
def apiOneVessel : Api :=
  { ports := fun _ => .exn "offline",
    vessels := fun _ => .resp 200 [shipZ],
    vesselById := fun _ => .exn "offline" }

/-- A tracking-API oracle whose port endpoint answers 500. -/
def apiPort500 : Api :=
  { ports := fun _ => .resp 500 [],
    vessels := fun _ => .exn "offline",
    vesselById := fun _ => .exn "offline" }

/-- A tracking-API oracle whose port endpoint answers 200 with no ports. -/
def apiPortEmpty : Api :=
  { ports := fun _ => .resp 200 [],
    vessels := fun _ => .exn "offline",
    vesselById := fun _ => .exn "offline" }

/-! Helper lemmas shared by the claim theorems. -/

lemma isPrefixOf_append_self (l post : List Char) : l.isPrefixOf (l ++ post) = true := by
  induction l with
  | nil => simp [List.isPrefixOf]
  | cons c t ih => simp [List.isPrefixOf, ih]

lemma containsL_of_isPrefixOf {n m : List Char} (h : n.isPrefixOf m = true) :
    containsL n m = true := by
  cases m with
  | nil => simpa [containsL] using h
  | cons c t => simp [containsL, h]

lemma containsL_parts (pre n post : List Char) :
    containsL n (pre ++ (n ++ post)) = true := by
  induction pre with
  | nil => exact containsL_of_isPrefixOf (isPrefixOf_append_self n post)
  | cons c t ih => simp [containsL, ih]

/-- A string assembled as `p ++ needle ++ q` contains `needle`. -/
lemma strContainsB_parts (p n q : String) : strContainsB (p ++ (n ++ q)) n = true := by
  simpa [strContainsB, String.data_append] using containsL_parts p.data n.data q.data

lemma round1_nonneg {x : ℚ} (h : 0 ≤ x) : 0 ≤ round1 x := by
  have h0 : (0 : ℤ) ≤ ⌊x * 10 + 1 / 2⌋ := by
    rw [Int.le_floor]
    push_cast
    linarith
  have hq : (0 : ℚ) ≤ (⌊x * 10 + 1 / 2⌋ : ℚ) := by exact_mod_cast h0
  unfold round1
  linarith

lemma round1_le_nat {x : ℚ} (m : ℕ) (h : x ≤ m) : round1 x ≤ m := by
  have hf : ⌊x * 10 + 1 / 2⌋ < (10 * m : ℤ) + 1 := by
    rw [Int.floor_lt]
    push_cast
    linarith
  have hle : (⌊x * 10 + 1 / 2⌋ : ℤ) ≤ 10 * m := by omega
  have hq : (⌊x * 10 + 1 / 2⌋ : ℚ) ≤ ((10 * m : ℤ) : ℚ) := by exact_mod_cast hle
  push_cast at hq
  unfold round1
  linarith

lemma countsBy_sum (keys : List String) :
    ((countsBy keys).map Prod.snd).sum = keys.length := by
  simpa [countsBy, List.map_map, Function.comp] using
    List.sum_map_count_dedup_eq_length keys

lemma getPortInfo_ships (api : Api) (p : String) : (getPortInfo api p).ships = none := by
  unfold getPortInfo
  cases h : api.ports p with
  | exn m => rfl
  | resp st body =>
    dsimp only
    split
    · rfl
    · cases body <;> rfl

lemma getShipByMmsi_ships (api : Api) (m : String) :
    (getShipByMmsi api m).ships = none := by
  unfold getShipByMmsi
  cases h : api.vesselById m with
  | exn e => rfl
  | resp st body =>
    dsimp only
    split <;> rfl

lemma searchVessels_no_error {api : Api} {q : String} {n : Nat} {l : List Ship}
    (hs : (searchVessels api q n).ships = some l) :
    (searchVessels api q n).error = none := by
  unfold searchVessels at hs ⊢
  cases h : api.vessels q with
  | exn e => rw [h] at hs; cases hs
  | resp st body =>
    rw [h] at hs
    dsimp only at hs ⊢
    by_cases hc : st = 200
    · rw [if_neg (fun hne => hne hc)]
    · rw [if_pos hc] at hs
      cases hs

lemma getShipsNearPort_no_error {api : Api} {p : String} {l : List Ship}
    (hs : (getShipsNearPort api p).ships = some l) :
    (getShipsNearPort api p).error = none := by
  unfold getShipsNearPort at hs ⊢
  cases h : api.ports p with
  | exn e => rw [h] at hs; cases hs
  | resp st body =>
    rw [h] at hs
    dsimp only at hs ⊢
    by_cases hc : st = 200
    · rw [if_neg (fun hne => hne hc)] at hs ⊢
      cases body with
      | nil => cases hs
      | cons hd tl =>
        dsimp only at hs ⊢
        cases h2 : api.vessels "" with
        | exn e => rw [h2] at hs; cases hs
        | resp st2 vs =>
          rw [h2] at hs
          dsimp only at hs ⊢
          by_cases hc2 : st2 = 200
          · rw [if_neg (fun hne => hne hc2)]
          · rw [if_pos hc2] at hs
            cases hs
    · rw [if_pos hc] at hs
      cases hs

/-- Every executor result that carries a vessel list carries no error key. -/
lemma executeQuery_ships_no_error {api : Api} {r : Rand} {qa : QueryAnalysis}
    {qr : QueryResult} {l : List Ship}
    (hq : executeQuery api r qa = some qr) (hs : qr.ships = some l) :
    qr.error = none := by
  unfold executeQuery at hq
  split_ifs at hq with h1 h2 h3 h4 h5 h6
  · cases hpn : qa.params.port_name with
    | none => rw [hpn] at hq; cases hq
    | some pn =>
      rw [hpn] at hq
      cases hq
      exact absurd hs (by simp [getPortInfo_ships])
  · cases hpn : qa.params.query with
    | none => rw [hpn] at hq; cases hq
    | some s =>
      rw [hpn] at hq
      cases hq
      exact searchVessels_no_error hs
  · cases hpn : qa.params.mmsi with
    | none => rw [hpn] at hq; cases hq
    | some m =>
      rw [hpn] at hq
      cases hq
      exact absurd hs (by simp [getShipByMmsi_ships])
  · cases hla : qa.params.lat with
    | none => rw [hla] at hq; cases hq
    | some la =>
      cases hlo : qa.params.lon with
      | none => rw [hla, hlo] at hq; cases hq
      | some lo =>
        rw [hla, hlo] at hq
        cases hq
        rfl
  · cases hpn : qa.params.vessel_type with
    | none => rw [hpn] at hq; cases hq
    | some vt =>
      rw [hpn] at hq
      cases hq
      rfl
  · cases hpn : qa.params.flag with
    | none => rw [hpn] at hq; cases hq
    | some fl =>
      rw [hpn] at hq
      cases hq
      rfl
  · cases hq
    cases hs

/-- The fallback text for an error-free result with a non-empty vessel list
is the enumeration, which exposes the first vessel's name between explicit
prefix and suffix strings. -/
lemma fallbackText_head_parts (qr : QueryResult) (s : Ship) (rest : List Ship)
    (he : qr.error = none) (hs : qr.ships = some (s :: rest)) :
    ∃ p q, fallbackText qr = "Encontrei " ++ (p ++ (s.name ++ q)) := by
  unfold fallbackText
  rw [he, hs]
  dsimp only
  have hpos : (s :: rest).length > 0 := by simp
  rw [if_pos hpos]
  by_cases h5 : (s :: rest).length ≤ 5
  · rw [if_pos h5]
    refine ⟨toString (s :: rest).length ++ " navios relacionados à sua consulta. \n\n• ",
      " (MMSI: " ++ (s.mmsi ++ (")\n  Tipo: " ++ (s.type ++
      ("\n  Bandeira: " ++ (s.flag ++ ("\n  Destino: " ++ (s.destination ++
      strJoin (rest.map shipLineA)))))))), ?_⟩
    apply String.ext
    simp [shipLineA, strJoin, String.data_append]
  · rw [if_neg h5]
    refine ⟨toString (s :: rest).length ++
      " navios relacionados à sua consulta. Aqui estão os primeiros 5:\n\n• ",
      " (MMSI: " ++ (s.mmsi ++ (")\n  Tipo: " ++ (s.type ++
      ("\n  Bandeira: " ++ (s.flag ++ ("\n  Destino: " ++ (s.destination ++
      ("\n\n" ++ strJoin ((rest.take 4).map shipLineB))))))))), ?_⟩
    apply String.ext
    simp [shipLineB, strJoin, List.take_succ_cons, String.data_append]

/-- Exhaustive shape analysis of the classifier output: each reachable
intent together with the parameters it always carries. -/
lemma analyzeQuery_shape (q : String) :
    (∃ s, analyzeQuery q = ⟨"port_info", { port_name := some s }⟩) ∨
    (∃ s, analyzeQuery q = ⟨"vessel_search", { query := some s }⟩) ∨
    (∃ s, analyzeQuery q = ⟨"vessel_by_mmsi", { mmsi := some s }⟩) ∨
    (∃ la lo rn, analyzeQuery q =
      ⟨"ships_in_area", { lat := some la, lon := some lo, region_name := some rn }⟩) ∨
    (∃ s, analyzeQuery q = ⟨"vessel_type_search", { vessel_type := some s }⟩) ∨
    (∃ s, analyzeQuery q = ⟨"flag_search", { flag := some s }⟩) ∨
    analyzeQuery q = ⟨"general", {}⟩ := by
  cases h1 : firstCap portREs (lowQ q) with
  | some cap => exact Or.inl ⟨stripS cap, by simp only [analyzeQuery, h1]⟩
  | none =>
  cases h2 : firstCap vesselREs (lowQ q) with
  | some cap => exact Or.inr (Or.inl ⟨stripS cap, by simp only [analyzeQuery, h1, h2]⟩)
  | none =>
  cases h3 : firstCap mmsiREs (lowQ q) with
  | some cap => exact Or.inr (Or.inr (Or.inl ⟨stripS cap, by simp only [analyzeQuery, h1, h2, h3]⟩))
  | none =>
  cases h4 : firstCap regionREs (lowQ q) with
  | some cap =>
    have hq : analyzeQuery q = regionOutcome (stripS cap) := by
      simp only [analyzeQuery, h1, h2, h3, h4]
    cases hf : regionsTable.find? fun kv => strContainsB (lowerStr (stripS cap)) kv.1 with
    | some kv =>
      refine Or.inr (Or.inr (Or.inr (Or.inl ⟨kv.2.lat, kv.2.lon, kv.2.name, ?_⟩)))
      rw [hq]
      simp only [regionOutcome, hf]
    | none =>
      refine Or.inl ⟨stripS cap, ?_⟩
      rw [hq]
      simp only [regionOutcome, hf]
  | none =>
  cases h5 : firstCap vesselTypeREs (lowQ q) with
  | some cap =>
    have hq : analyzeQuery q = typeOutcome (stripS cap) := by
      simp only [analyzeQuery, h1, h2, h3, h4, h5]
    cases hf : vesselTypesTable.find? fun kv => strContainsB (lowerStr (stripS cap)) kv.1 with
    | some kv =>
      refine Or.inr (Or.inr (Or.inr (Or.inr (Or.inl ⟨kv.2, ?_⟩))))
      rw [hq]
      simp only [typeOutcome, hf]
    | none =>
      refine Or.inr (Or.inr (Or.inr (Or.inr (Or.inl ⟨stripS cap, ?_⟩))))
      rw [hq]
      simp only [typeOutcome, hf]
  | none =>
  cases h6 : firstCap flagREs (lowQ q) with
  | some cap =>
    exact Or.inr (Or.inr (Or.inr (Or.inr (Or.inr (Or.inl
      ⟨stripS cap, by simp only [analyzeQuery, h1, h2, h3, h4, h5, h6]⟩)))))
  | none =>
    exact Or.inr (Or.inr (Or.inr (Or.inr (Or.inr (Or.inr
      (by simp only [analyzeQuery, h1, h2, h3, h4, h5, h6]))))))

end Shipping

namespace Shipping

/-- C1: `analyze_query` evaluates its pattern groups in the fixed order
port, vessel-name, vessel-id (MMSI), region, vessel-type, flag; a match in
an earlier group fully determines the result (later groups are never
consulted), and when no group matches the result is intent `general` with
an empty parameter mapping. -/
theorem analyze_query_group_precedence (q : String) :
    (∀ cap, firstCap portREs (lowQ q) = some cap →
      analyzeQuery q = ⟨"port_info", { port_name := some (stripS cap) }⟩) ∧
    (firstCap portREs (lowQ q) = none →
      ∀ cap, firstCap vesselREs (lowQ q) = some cap →
      analyzeQuery q = ⟨"vessel_search", { query := some (stripS cap) }⟩) ∧
    (firstCap portREs (lowQ q) = none → firstCap vesselREs (lowQ q) = none →
      ∀ cap, firstCap mmsiREs (lowQ q) = some cap →
      analyzeQuery q = ⟨"vessel_by_mmsi", { mmsi := some (stripS cap) }⟩) ∧
    (firstCap portREs (lowQ q) = none → firstCap vesselREs (lowQ q) = none →
      firstCap mmsiREs (lowQ q) = none →
      ∀ cap, firstCap regionREs (lowQ q) = some cap →
      analyzeQuery q = regionOutcome (stripS cap)) ∧
    (firstCap portREs (lowQ q) = none → firstCap vesselREs (lowQ q) = none →
      firstCap mmsiREs (lowQ q) = none → firstCap regionREs (lowQ q) = none →
      ∀ cap, firstCap vesselTypeREs (lowQ q) = some cap →
      analyzeQuery q = typeOutcome (stripS cap)) ∧
    (firstCap portREs (lowQ q) = none → firstCap vesselREs (lowQ q) = none →
      firstCap mmsiREs (lowQ q) = none → firstCap regionREs (lowQ q) = none →
      firstCap vesselTypeREs (lowQ q) = none →
      ∀ cap, firstCap flagREs (lowQ q) = some cap →
      analyzeQuery q = ⟨"flag_search", { flag := some (stripS cap) }⟩) ∧
    (firstCap portREs (lowQ q) = none → firstCap vesselREs (lowQ q) = none →
      firstCap mmsiREs (lowQ q) = none → firstCap regionREs (lowQ q) = none →
      firstCap vesselTypeREs (lowQ q) = none → firstCap flagREs (lowQ q) = none →
      analyzeQuery q = ⟨"general", {}⟩) := by
  refine ⟨?_, ?_, ?_, ?_, ?_, ?_, ?_⟩
  · intro cap h1
    simp only [analyzeQuery, h1]
  · intro h1 cap h2
    simp only [analyzeQuery, h1, h2]
  · intro h1 h2 cap h3
    simp only [analyzeQuery, h1, h2, h3]
  · intro h1 h2 h3 cap h4
    simp only [analyzeQuery, h1, h2, h3, h4]
  · intro h1 h2 h3 h4 cap h5
    simp only [analyzeQuery, h1, h2, h3, h4, h5]
  · intro h1 h2 h3 h4 h5 cap h6
    simp only [analyzeQuery, h1, h2, h3, h4, h5, h6]
  · intro h1 h2 h3 h4 h5 h6
    simp only [analyzeQuery, h1, h2, h3, h4, h5, h6]

/-- Closed instances of C1: on "porto de santos" the port group matches and
decides the result; on "xyzzy plugh" no group matches and the result is
intent `general` with empty params. -/
theorem analyze_query_group_precedence_witness :
    analyzeQuery "porto de santos" =
      ⟨"port_info", { port_name := some "santos" }⟩ ∧
    analyzeQuery "xyzzy plugh" = ⟨"general", {}⟩ := by
  constructor
  · exact (analyze_query_group_precedence "porto de santos").1
      "santos".data (by decide)
  · exact (analyze_query_group_precedence "xyzzy plugh").2.2.2.2.2.2
      (by decide) (by decide) (by decide) (by decide) (by decide) (by decide)

/-- C2: the four example classifications: "porto de santos" is a port-info
query for "santos"; "mmsi 123456789" is a vessel lookup by identifier
"123456789" (code intent string `vessel_by_mmsi`, the spec's `vessel_by_id`);
"navios tipo cargo" is a vessel-type search for canonical category "Cargo";
"xyzzy plugh" is `general` with empty params. -/
theorem analyze_query_examples :
    analyzeQuery "porto de santos" =
      ⟨"port_info", { port_name := some "santos" }⟩ ∧
    analyzeQuery "mmsi 123456789" =
      ⟨"vessel_by_mmsi", { mmsi := some "123456789" }⟩ ∧
    analyzeQuery "navios tipo cargo" =
      ⟨"vessel_type_search", { vessel_type := some "Cargo" }⟩ ∧
    analyzeQuery "xyzzy plugh" = ⟨"general", {}⟩ := by
  refine ⟨by decide, by decide, by decide, by decide⟩

/-- C3: when the region group is the first to match, the classification is
decided by the static region table: if some table key occurs (substring,
case-insensitive) in the captured text, the intent is `ships_in_area` with
that entry's coordinates (first key in insertion order); otherwise the
intent is `port_info` with the captured text (as bound by the code,
whitespace-stripped) as the port name. -/
theorem analyze_query_region_fallback (q : String) (cap : List Char)
    (h1 : firstCap portREs (lowQ q) = none)
    (h2 : firstCap vesselREs (lowQ q) = none)
    (h3 : firstCap mmsiREs (lowQ q) = none)
    (h4 : firstCap regionREs (lowQ q) = some cap) :
    (∀ kv, (regionsTable.find? fun e => strContainsB (lowerStr (stripS cap)) e.1) =
        some kv →
      analyzeQuery q = ⟨"ships_in_area",
        { lat := some kv.2.lat, lon := some kv.2.lon,
          region_name := some kv.2.name }⟩) ∧
    ((regionsTable.find? fun e => strContainsB (lowerStr (stripS cap)) e.1) = none →
      analyzeQuery q = ⟨"port_info", { port_name := some (stripS cap) }⟩) ∧
    ((regionsTable.find? fun e => strContainsB (lowerStr (stripS cap)) e.1) = none ↔
      ∀ kv ∈ regionsTable, strContainsB (lowerStr (stripS cap)) kv.1 = false) := by
  have hq : analyzeQuery q = regionOutcome (stripS cap) := by
    simp only [analyzeQuery, h1, h2, h3, h4]
  refine ⟨?_, ?_, ?_⟩
  · intro kv hf
    rw [hq]
    simp only [regionOutcome, hf]
  · intro hf
    rw [hq]
    simp only [regionOutcome, hf]
  · rw [List.find?_eq_none]
    constructor
    · intro h kv hkv
      simpa using h kv hkv
    · intro h kv hkv
      simp [h kv hkv]

/-- Closed instance of C3: "near gibraltar" reaches the region group, the
key "gibraltar" is found in the table, and the result is `ships_in_area`
with the Strait of Gibraltar coordinates. -/
theorem analyze_query_region_fallback_witness :
    analyzeQuery "near gibraltar" =
      ⟨"ships_in_area",
        { lat := some ((35.9897 : ℚ)), lon := some ((-5.6125 : ℚ)),
          region_name := some "Estreito de Gibraltar" }⟩ :=
  (analyze_query_region_fallback "near gibraltar" "gibraltar".data
    (by decide) (by decide) (by decide) (by decide)).1
    ("gibraltar", ⟨"Estreito de Gibraltar", 35.9897, -5.6125⟩) rfl

end Shipping

namespace Shipping

lemma round1_lt_360 {x : ℚ} (h : x ≤ 359) : round1 x < 360 := by
  have h359 : round1 x ≤ ((359 : ℕ) : ℚ) := round1_le_nat 359 (by exact_mod_cast h)
  push_cast at h359
  linarith

lemma round1_le_twenty {x : ℚ} (h : x ≤ 20) : round1 x ≤ 20 := by
  have h20 : round1 x ≤ ((20 : ℕ) : ℚ) := round1_le_nat 20 (by exact_mod_cast h)
  push_cast at h20
  linarith

/-- C4: the executor serves `vessel_type_search` and `flag_search` from the
area simulation at placeholder coordinates (0, 0), filtered locally — exact
case-insensitive equality on the type, case-insensitive substring on the
flag — and the result is independent of the tracking-API oracle (no real
request is involved). -/
theorem execute_query_type_flag_use_simulation (api api2 : Api) (r : Rand)
    (qa : QueryAnalysis) :
    (∀ vt, qa.intent = "vessel_type_search" → qa.params.vessel_type = some vt →
      executeQuery api r qa = some
        { ships := some (((getShipsInArea r 0 0 50).ships.getD []).filter fun s =>
            lowerStr s.type == lowerStr vt) } ∧
      executeQuery api r qa = executeQuery api2 r qa) ∧
    (∀ fl, qa.intent = "flag_search" → qa.params.flag = some fl →
      executeQuery api r qa = some
        { ships := some (((getShipsInArea r 0 0 50).ships.getD []).filter fun s =>
            strContainsB (lowerStr s.flag) (lowerStr fl)) } ∧
      executeQuery api r qa = executeQuery api2 r qa) := by
  constructor
  · intro vt hint hvt
    have hall : ∀ a : Api, executeQuery a r qa = some
        { ships := some (((getShipsInArea r 0 0 50).ships.getD []).filter fun s =>
            lowerStr s.type == lowerStr vt) } := by
      intro a
      simp [executeQuery, hint, hvt]
    exact ⟨hall api, (hall api).trans (hall api2).symm⟩
  · intro fl hint hfl
    have hall : ∀ a : Api, executeQuery a r qa = some
        { ships := some (((getShipsInArea r 0 0 50).ships.getD []).filter fun s =>
            strContainsB (lowerStr s.flag) (lowerStr fl)) } := by
      intro a
      simp [executeQuery, hint, hfl]
    exact ⟨hall api, (hall api).trans (hall api2).symm⟩

/-- Closed instance of C4: a vessel-type search for "Cargo" yields the
filtered simulation and yields the same result under two different API
oracles. -/
theorem execute_query_type_flag_use_simulation_witness :
    executeQuery apiDown rand0 ⟨"vessel_type_search", { vessel_type := some "Cargo" }⟩ =
      some { ships := some (((getShipsInArea rand0 0 0 50).ships.getD []).filter fun s =>
          lowerStr s.type == lowerStr "Cargo") } ∧
    executeQuery apiDown rand0 ⟨"vessel_type_search", { vessel_type := some "Cargo" }⟩ =
      executeQuery apiOneVessel rand0
        ⟨"vessel_type_search", { vessel_type := some "Cargo" }⟩ :=
  (execute_query_type_flag_use_simulation apiDown apiOneVessel rand0
    ⟨"vessel_type_search", { vessel_type := some "Cargo" }⟩).1 "Cargo" rfl rfl

/-- C5: for every center, radius and random outcome, the area simulation
returns between 5 and 15 vessels, each with heading in `[0, 360)` and speed
in `[0, 20]`; it never produces an error and always attaches the synthetic
disclaimer note. -/
theorem get_ships_in_area_bounds (r : Rand) (la lo radius : ℚ) :
    ∃ ships, (getShipsInArea r la lo radius).ships = some ships ∧
      5 ≤ ships.length ∧ ships.length ≤ 15 ∧
      (∀ s ∈ ships, 0 ≤ s.course ∧ s.course < 360 ∧ 0 ≤ s.speed ∧ s.speed ≤ 20) ∧
      (getShipsInArea r la lo radius).error = none ∧
      (getShipsInArea r la lo radius).note = some simNote := by
  refine ⟨(List.range (r.randintN 0 5 15)).map fun i =>
    genShip r (1 + 10 * i) la lo radius, rfl, ?_, ?_, ?_, rfl, rfl⟩
  · simpa using (r.randint_mem 0 5 15 (by norm_num)).1
  · simpa using (r.randint_mem 0 5 15 (by norm_num)).2
  · intro s hsmem
    simp only [List.mem_map, List.mem_range] at hsmem
    obtain ⟨i, hi, rfl⟩ := hsmem
    simp only [genShip]
    refine ⟨?_, ?_, ?_, ?_⟩
    · exact round1_nonneg (r.uniform_mem (1 + 10 * i + 4) 0 359 (by norm_num)).1
    · exact round1_lt_360 (r.uniform_mem (1 + 10 * i + 4) 0 359 (by norm_num)).2
    · exact round1_nonneg (r.uniform_mem (1 + 10 * i + 3) 0 20 (by norm_num)).1
    · exact round1_le_twenty (r.uniform_mem (1 + 10 * i + 3) 0 20 (by norm_num)).2

/-- C6: a non-200 status on the port lookup yields an error result carrying
the status code (no uncaught fault), and a 200 answer with an empty port
list yields a not-found error naming the requested port — both for
`get_port_info` and for the port phase of `get_ships_near_port`. -/
theorem port_lookup_error_reporting (api : Api) (name : String) (st : Nat)
    (body : List Port) :
    (api.ports name = .resp st body → st ≠ 200 →
      getPortInfo api name =
        { error := some ("Failed to fetch port data: " ++ toString st) } ∧
      getShipsNearPort api name =
        { error := some ("Failed to fetch port data: " ++ toString st) }) ∧
    (api.ports name = .resp 200 [] →
      getPortInfo api name =
        { error := some ("No ports found with name: " ++ name) } ∧
      getShipsNearPort api name =
        { error := some ("No ports found with name: " ++ name) }) := by
  constructor
  · intro h hne
    constructor
    · unfold getPortInfo
      rw [h]
      dsimp only
      rw [if_pos hne]
    · unfold getShipsNearPort
      rw [h]
      dsimp only
      rw [if_pos hne]
  · intro h
    constructor
    · unfold getPortInfo
      rw [h]
      dsimp only
      rw [if_neg (fun hc => hc rfl)]
    · unfold getShipsNearPort
      rw [h]
      dsimp only
      rw [if_neg (fun hc => hc rfl)]

/-- Closed instances of C6: a 500 on the port endpoint and an empty 200
answer, both reported as error results. -/
theorem port_lookup_error_reporting_witness :
    getPortInfo apiPort500 "santos" =
      { error := some ("Failed to fetch port data: " ++ toString 500) } ∧
    getShipsNearPort apiPortEmpty "santos" =
      { error := some ("No ports found with name: " ++ "santos") } :=
  ⟨((port_lookup_error_reporting apiPort500 "santos" 500 []).1 rfl
      (by norm_num)).1,
   ((port_lookup_error_reporting apiPortEmpty "santos" 0 []).2 rfl).2⟩

end Shipping

namespace Shipping

/-- C7: whenever the executor's result carries a non-empty vessel list and
the generative-language call raises, `generate_response` still returns a
non-empty text that mentions at least one vessel name from the list (the
enumeration covers at most the first five). Proven for the evidently
intended code; as committed the function is unreachable, see C7's result
entry (`SyntaxError` from the truncated string delimiters). -/
theorem generate_response_fallback_informative (api : Api) (r : Rand)
    (qa : QueryAnalysis) (query : String) (qr : QueryResult) (ships : List Ship)
    (hq : executeQuery api r qa = some qr) (hs : qr.ships = some ships)
    (hne : ships ≠ []) :
    generateResponse none query qr ≠ "" ∧
    ∃ s ∈ ships.take 5,
      strContainsB (generateResponse none query qr) s.name = true := by
  cases ships with
  | nil => exact absurd rfl hne
  | cons s rest =>
    have he : qr.error = none := executeQuery_ships_no_error hq hs
    obtain ⟨p, sfx, htext⟩ := fallbackText_head_parts qr s rest he hs
    have htext2 : generateResponse none query qr =
        ("Encontrei " ++ p) ++ (s.name ++ sfx) := by
      show fallbackText qr = _
      rw [htext, String.append_assoc]
    constructor
    · intro h0
      rw [htext2] at h0
      have hlen := congrArg String.length h0
      simp only [String.length_append] at hlen
      have h10 : ("Encontrei " : String).length = 10 := rfl
      have hz : ("" : String).length = 0 := rfl
      omega
    · refine ⟨s, by simp, ?_⟩
      rw [htext2]
      exact strContainsB_parts ("Encontrei " ++ p) s.name sfx

/-- Closed instance of C7: with the language model failing and one vessel
found, the fallback text is non-empty and contains the vessel's name. -/
theorem generate_response_fallback_informative_witness :
    generateResponse none "navio zeta" { ships := some [shipZ] } ≠ "" ∧
    ∃ s ∈ [shipZ].take 5,
      strContainsB (generateResponse none "navio zeta" { ships := some [shipZ] })
        s.name = true :=
  generate_response_fallback_informative apiOneVessel rand0
    ⟨"vessel_search", { query := some "zeta" }⟩ "navio zeta"
    { ships := some [shipZ] } [shipZ] rfl rfl (by simp)

/-- C8 (spec-modelled aggregator): category, status and flag counts each sum
to the input length; sector counts sum to the number of vessels with a
heading; and headings 0, 22.4 and 337.6 land in the North sector while 90
lands in East. -/
theorem process_ships_data_invariants (region : String) (ships : List AggShip) :
    (((processShipsData region ships).byCategory.map Prod.snd).sum = ships.length) ∧
    (((processShipsData region ships).byStatus.map Prod.snd).sum = ships.length) ∧
    (((processShipsData region ships).byFlag.map Prod.snd).sum = ships.length) ∧
    (((processShipsData region ships).bySector.map Prod.snd).sum =
      (ships.filterMap fun s => s.heading).length) ∧
    headingSector 0 = "N" ∧ headingSector 22.4 = "N" ∧
    headingSector 337.6 = "N" ∧ headingSector 90 = "E" := by
  refine ⟨?_, ?_, ?_, ?_, ?_, ?_, ?_, ?_⟩
  · simp [processShipsData, countsBy_sum]
  · simp [processShipsData, countsBy_sum]
  · simp [processShipsData, countsBy_sum]
  · simp [processShipsData, countsBy_sum]
  · norm_num [headingSector]
  · norm_num [headingSector]
  · norm_num [headingSector]
  · norm_num [headingSector]

/-- C9: every classifier output has an intent in the fixed seven-element
set and carries every parameter the executor reads for that intent, so the
executor never fails on a missing key (its result is always `some`). -/
theorem classifier_executor_compatibility (q : String) (api : Api) (r : Rand) :
    (analyzeQuery q).intent ∈ ["port_info", "vessel_search", "vessel_by_mmsi",
      "ships_in_area", "vessel_type_search", "flag_search", "general"] ∧
    ((analyzeQuery q).intent = "port_info" →
      ((analyzeQuery q).params.port_name).isSome = true) ∧
    ((analyzeQuery q).intent = "vessel_search" →
      ((analyzeQuery q).params.query).isSome = true) ∧
    ((analyzeQuery q).intent = "vessel_by_mmsi" →
      ((analyzeQuery q).params.mmsi).isSome = true) ∧
    ((analyzeQuery q).intent = "ships_in_area" →
      ((analyzeQuery q).params.lat).isSome = true ∧
      ((analyzeQuery q).params.lon).isSome = true) ∧
    ((analyzeQuery q).intent = "vessel_type_search" →
      ((analyzeQuery q).params.vessel_type).isSome = true) ∧
    ((analyzeQuery q).intent = "flag_search" →
      ((analyzeQuery q).params.flag).isSome = true) ∧
    (executeQuery api r (analyzeQuery q)).isSome = true := by
  rcases analyzeQuery_shape q with ⟨s, h⟩ | ⟨s, h⟩ | ⟨s, h⟩ | ⟨la, lo, rn, h⟩ |
    ⟨s, h⟩ | ⟨s, h⟩ | h <;> rw [h] <;> simp [executeQuery]

/-- C10: in the degraded-mode fallback, an error key takes precedence over
everything else: the returned text is exactly the error message, regardless
of any vessel list also present in the result. -/
theorem fallback_error_precedence (query : String) (qr : QueryResult) (e : String)
    (he : qr.error = some e) :
    generateResponse none query qr =
      "Desculpe, não consegui processar sua consulta. Ocorreu um erro: " ++ e := by
  show fallbackText qr = _
  rw [fallbackText, he]

/-- Closed instance of C10: a result carrying both an error and a non-empty
vessel list falls back to the error message, which does not mention the
vessel's name. -/
theorem fallback_error_precedence_witness :
    generateResponse none "q" { error := some "falha", ships := some [shipZ] } =
      "Desculpe, não consegui processar sua consulta. Ocorreu um erro: " ++ "falha" ∧
    strContainsB
      (generateResponse none "q" { error := some "falha", ships := some [shipZ] })
      shipZ.name = false :=
  ⟨fallback_error_precedence "q" { error := some "falha", ships := some [shipZ] }
      "falha" rfl,
   by decide⟩

end Shipping
